import Mathlib

/-!
Verification of the three Firebase request handlers in `backend/main.py`:
the callable `send_test_notification`, and the HTTP handlers
`schedule_notification` and `send_notification`.

The Python code is shallowly embedded: JSON values become the inductive
`JVal`; a parsed JSON object body is an association list `Obj`;
`dict.get` becomes `Obj.get` / `Obj.getD`; Python truthiness of values
read from a dict becomes `pyTruthy`; Python's `int(...)` conversion
becomes `pyInt`, which can fail exactly when `int` raises.

The two external collaborators (`messaging.send` and
`tasks_client.create_task`) are oracles passed to the handlers as
functions returning `Except String α` (`.error e` models the client
library raising with message `e`).  Each handler returns its result
paired with the list of external calls it performed, so that
"no external call is made" is a provable statement.
-/

/-- JSON-like values carried in request and response bodies. -/
inductive JVal where
  | jNull : JVal
  | jBool : Bool → JVal
  | jInt : Int → JVal
  | jStr : String → JVal
  | jObj : List (String × JVal) → JVal

/-- A parsed JSON object body (a Python dict), as an association list. -/
abbrev Obj := List (String × JVal)

/-- Python `d.get(k)`: the value at the first occurrence of key `k`, if any. -/
def Obj.get (o : Obj) (k : String) : Option JVal :=
  (o.find? (fun p => p.1 == k)).map (fun p => p.2)

/-- Python `d.get(k, default)`. -/
def Obj.getD (o : Obj) (k : String) (d : JVal) : JVal :=
  (Obj.get o k).getD d

/-- Python truthiness of a JSON value (`bool(v)`). -/
def pyTruthyV : JVal → Bool
  | .jNull => false
  | .jBool b => b
  | .jInt n => n != 0
  | .jStr s => s != ""
  | .jObj l => !l.isEmpty

/-- Python truthiness of the result of `d.get(k)` (`None` when the key is absent). -/
def pyTruthy : Option JVal → Bool
  | none => false
  | some v => pyTruthyV v

/-- Digits of a decimal literal, most significant first; `none` on a non-digit. -/
def pyDigitsAux : List Char → Nat → Option Nat
  | [], acc => some acc
  | c :: cs, acc =>
      if c.isDigit then pyDigitsAux cs (10 * acc + (c.toNat - 48)) else none

/-- A nonempty run of decimal digits, or `none`. -/
def pyDigits : List Char → Option Nat
  | [] => none
  | c :: cs => pyDigitsAux (c :: cs) 0

/-- Drop leading whitespace characters. -/
def dropLeadingSpaces : List Char → List Char
  | [] => []
  | c :: cs => if c.isWhitespace then dropLeadingSpaces cs else c :: cs

/-- Strip whitespace from both ends, as `int()` does before parsing. -/
def pyStrip (cs : List Char) : List Char :=
  (dropLeadingSpaces (dropLeadingSpaces cs).reverse).reverse

/-- Python `int(s)` on a string: strip whitespace, optional sign, decimal digits. -/
def pyParseInt (s : String) : Option Int :=
  match pyStrip s.data with
  | '+' :: cs => (pyDigits cs).map (fun n => (n : Int))
  | '-' :: cs => (pyDigits cs).map (fun n => -(n : Int))
  | cs => (pyDigits cs).map (fun n => (n : Int))

/-- Python `int(v)` on a JSON value; `.error` models `int` raising. -/
def pyInt : JVal → Except String Int
  | .jInt n => .ok n
  | .jBool b => .ok (if b then 1 else 0)
  | .jStr s =>
      match pyParseInt s with
      | some n => .ok n
      | none => .error ("invalid literal for int() with base 10: " ++ s)
  | .jNull => .error "int() argument must be a string or a number, not NoneType"
  | .jObj _ => .error "int() argument must be a string or a number, not dict"

/-- `messaging.Notification(title=..., body=...)`. -/
structure FcmNotification where
  title : JVal
  body : JVal

/-- `messaging.Aps(badge=..., sound=...)`. -/
structure Aps where
  badge : Int
  sound : String

/-- `messaging.APNSPayload(aps=...)`. -/
structure APNSPayload where
  aps : Aps

/-- `messaging.APNSConfig(payload=...)`. -/
structure APNSConfig where
  payload : APNSPayload

/-- `messaging.Message(...)`: the payload handed to `messaging.send`. -/
structure FcmMessage where
  notification : FcmNotification
  token : JVal
  apns : APNSConfig

/-- The Cloud Tasks task dict built by `schedule_notification`.  The code
formats `schedule_time` as an ISO-8601 UTC string; we keep the underlying
timestamp (seconds) so that times stay comparable. -/
structure CloudTask where
  http_method : String
  url : String
  content_type : String
  body : Obj
  schedule_time : Int

/-- One external call performed by a handler. -/
inductive ExtCall where
  | send : FcmMessage → ExtCall
  | create_task : String → CloudTask → ExtCall

/-- The dict returned by the callable `send_test_notification`:
`{"success": ..., "message_id": ...}` or `{"success": ..., "error": ...}`;
an absent key is `none`. -/
structure CallResult where
  success : Bool
  message_id : Option String
  error : Option String

/-- The body of an `https_fn.Response`: either a plain string or a
JSON-encoded value (`json.dumps` with `content_type="application/json"`). -/
inductive RespBody where
  | text : String → RespBody
  | json : JVal → RespBody

/-- An `https_fn.Response`. -/
structure HttpResponse where
  status : Nat
  body : RespBody

/-- Process configuration plus the UTC time at request handling
(`datetime.utcnow()`, as seconds). -/
structure Env where
  project_id : String
  location : String
  queue_name : String
  now : Int

/-- `tasks_client.queue_path(project, location, queue)`. -/
def queue_path (project location queue : String) : String :=
  "projects/" ++ project ++ "/locations/" ++ location ++ "/queues/" ++ queue

/-- `datetime.isoformat()`, abstracted to an injective rendering of the
timestamp; none of the verified properties depend on the exact format. -/
def isoformat (t : Int) : String :=
  toString t

/-- The callable `send_test_notification`.  `sendFcm` is the
`messaging.send` oracle.  Returns the result dict and the external calls
made. -/
def send_test_notification (sendFcm : FcmMessage → Except String String)
    (data : Obj) : CallResult × List ExtCall :=
  if pyTruthy (Obj.get data "token") = false then
    (⟨false, none, some "Missing device token"⟩, [])
  else
    let message : FcmMessage :=
      ⟨⟨Obj.getD data "title" (.jStr "Test Notification"),
        Obj.getD data "body" (.jStr "This is a test notification from Firebase")⟩,
       (Obj.get data "token").getD .jNull,
       ⟨⟨⟨1, "default"⟩⟩⟩⟩
    match sendFcm message with
    | .ok response => (⟨true, some response, none⟩, [.send message])
    | .error e => (⟨false, none, some e⟩, [.send message])

/-- The task payload built by `schedule_notification`:
`{"token": token, "notification": {"title": title, "body": body}}`. -/
def schedulePayload (token title body : JVal) : Obj :=
  [("token", token), ("notification", .jObj [("title", title), ("body", body)])]

/-- A 500 response with a JSON `{"error": e}` body (`except Exception` branch). -/
def resp500 (e : String) : HttpResponse :=
  ⟨500, .json (.jObj [("error", .jStr e)])⟩

/-- The HTTP handler `schedule_notification`.  `create_task` is the Cloud
Tasks oracle; `reqBody` is the outcome of `req.get_json()` (`.error`
models a malformed body raising during parsing). -/
def schedule_notification (env : Env)
    (create_task : String → CloudTask → Except String String)
    (method : String) (reqBody : Except String Obj) :
    HttpResponse × List ExtCall :=
  if method ≠ "POST" then
    (⟨405, .json (.jObj [("error", .jStr "Only POST requests are accepted")])⟩, [])
  else
    match reqBody with
    | .error e => (resp500 e, [])
    | .ok request_data =>
      if pyTruthy (Obj.get request_data "token") = false then
        (⟨400, .json (.jObj [("error", .jStr "Missing device token")])⟩, [])
      else
        let token := (Obj.get request_data "token").getD .jNull
        let title := Obj.getD request_data "title" (.jStr "Scheduled Notification")
        let body := Obj.getD request_data "body"
          (.jStr "This is a scheduled notification from Firebase")
        match pyInt (Obj.getD request_data "delay" (.jInt 60)) with
        | .error e => (resp500 e, [])
        | .ok delay_seconds =>
          let scheduled_time := env.now + delay_seconds
          let parent := queue_path env.project_id env.location env.queue_name
          let function_url :=
            "https://" ++ env.location ++ "-" ++ env.project_id ++
              ".cloudfunctions.net/send_notification"
          let payload := schedulePayload token title body
          let task : CloudTask :=
            ⟨"POST", function_url, "application/json", payload, scheduled_time⟩
          match create_task parent task with
          | .error e => (resp500 e, [.create_task parent task])
          | .ok name =>
            (⟨200, .json (.jObj [
                ("success", .jBool true),
                ("scheduled", .jBool true),
                ("task_name", .jStr name),
                ("scheduled_time", .jStr (isoformat scheduled_time)),
                ("message", .jStr ("Notification scheduled for " ++
                  isoformat scheduled_time))])⟩,
             [.create_task parent task])

/-- The HTTP handler `send_notification` (the Cloud Tasks callback target). -/
def send_notification (sendFcm : FcmMessage → Except String String)
    (method : String) (reqBody : Except String Obj) :
    HttpResponse × List ExtCall :=
  if method ≠ "POST" then
    (⟨405, .text "Only POST requests are accepted"⟩, [])
  else
    match reqBody with
    | .error e => (resp500 e, [])
    | .ok request_data =>
      let token := Obj.get request_data "token"
      let notification_data := Obj.getD request_data "notification" (.jObj [])
      if pyTruthy token = false then
        (⟨400, .text "Missing token"⟩, [])
      else
        match notification_data with
        | .jObj nd =>
          let message : FcmMessage :=
            ⟨⟨Obj.getD nd "title" (.jStr "Notification"),
              Obj.getD nd "body" (.jStr "You have a notification")⟩,
             token.getD .jNull,
             ⟨⟨⟨1, "default"⟩⟩⟩⟩
          match sendFcm message with
          | .ok response =>
            (⟨200, .json (.jObj [("success", .jBool true),
                ("message_id", .jStr response)])⟩,
             [.send message])
          | .error e => (resp500 e, [.send message])
        | _ =>
          -- `.get` on a non-dict raises AttributeError, caught by the
          -- handler's generic exception branch.
          (resp500 "AttributeError: object has no attribute get", [])

/-- A response whose body is JSON carrying an `"error"` key. -/
def jsonError (r : HttpResponse) : Bool :=
  match r.body with
  | .json (.jObj l) => (Obj.get l "error").isSome
  | _ => false

/-- A fixed environment for concrete evaluations. -/
def env0 : Env :=
  ⟨"demo-project", "us-central1", "fcm-notification-queue", 1000⟩

/-- A `messaging.send` oracle that always accepts. -/
def sendOk : FcmMessage → Except String String :=
  fun _ => .ok "projects/demo-project/messages/0001"

/-- A `create_task` oracle that always accepts. -/
def createOk : String → CloudTask → Except String String :=
  fun _ _ => .ok "projects/demo-project/locations/us-central1/queues/fcm-notification-queue/tasks/42"

/-! ## Helper lemmas -/

/-- An absent or empty-string token is falsy. -/
lemma pyTruthy_token_absent_or_empty {o : Obj} (k : String)
    (h : Obj.get o k = none ∨ Obj.get o k = some (JVal.jStr "")) :
    pyTruthy (Obj.get o k) = false := by
  rcases h with h | h <;> rw [h] <;> rfl

/-! ## Claims -/

/-- C1: for every request to any of the three handlers whose token field is
absent or an empty string, the handler fails (`success = false` for the
callable, HTTP 400 for the HTTP endpoints) and performs no external call. -/
theorem missing_token_rejected_no_external_call
    (sendFcm sendFcm2 : FcmMessage → Except String String)
    (create_task : String → CloudTask → Except String String)
    (env : Env) (d : Obj)
    (h : Obj.get d "token" = none ∨ Obj.get d "token" = some (JVal.jStr "")) :
    ((send_test_notification sendFcm d).1.success = false ∧
      (send_test_notification sendFcm d).2 = []) ∧
    ((schedule_notification env create_task "POST" (Except.ok d)).1.status = 400 ∧
      (schedule_notification env create_task "POST" (Except.ok d)).2 = []) ∧
    ((send_notification sendFcm2 "POST" (Except.ok d)).1.status = 400 ∧
      (send_notification sendFcm2 "POST" (Except.ok d)).2 = []) := by
  have ht := pyTruthy_token_absent_or_empty "token" h
  refine ⟨?_, ?_, ?_⟩ <;>
    simp [send_test_notification, schedule_notification, send_notification, ht]

/-- Witness for C1 at the empty request body. -/
theorem missing_token_rejected_no_external_call_witness :
    ((send_test_notification sendOk []).1.success = false ∧
      (send_test_notification sendOk []).2 = []) ∧
    ((schedule_notification env0 createOk "POST" (Except.ok [])).1.status = 400 ∧
      (schedule_notification env0 createOk "POST" (Except.ok [])).2 = []) ∧
    ((send_notification sendOk "POST" (Except.ok [])).1.status = 400 ∧
      (send_notification sendOk "POST" (Except.ok [])).2 = []) :=
  missing_token_rejected_no_external_call sendOk sendOk createOk env0 [] (Or.inl rfl)

/-- C2: for every valid POST to `/schedule_notification` with token present,
the computed schedule time is the handling-time UTC clock plus the requested
delay (60 when `delay` is absent), and the 200 body carries `success:true`,
`scheduled:true`, the task name returned by the queue, and that time. -/
theorem schedule_success_time_and_body (env : Env)
    (create_task : String → CloudTask → Except String String)
    (d : Obj) (n : Int) (nm : String)
    (htok : pyTruthy (Obj.get d "token") = true)
    (hdelay : pyInt (Obj.getD d "delay" (JVal.jInt 60)) = Except.ok n)
    (hcreate : ∀ p t, create_task p t = Except.ok nm) :
    (schedule_notification env create_task "POST" (Except.ok d)).1 =
      ⟨200, RespBody.json (JVal.jObj [
        ("success", JVal.jBool true),
        ("scheduled", JVal.jBool true),
        ("task_name", JVal.jStr nm),
        ("scheduled_time", JVal.jStr (isoformat (env.now + n))),
        ("message", JVal.jStr ("Notification scheduled for " ++
          isoformat (env.now + n)))])⟩ ∧
    (Obj.get d "delay" = none → n = 60) := by
  constructor
  · simp [schedule_notification, htok, hdelay, hcreate]
  · intro hd
    rw [Obj.getD, hd] at hdelay
    simp [pyInt] at hdelay
    omega

/-- Witness for C2: token "abc", delay 120 at clock 1000 schedules for 1120. -/
theorem schedule_success_time_and_body_witness :
    (schedule_notification env0 createOk "POST"
      (Except.ok [("token", JVal.jStr "abc"), ("delay", JVal.jInt 120)])).1 =
      ⟨200, RespBody.json (JVal.jObj [
        ("success", JVal.jBool true),
        ("scheduled", JVal.jBool true),
        ("task_name", JVal.jStr
          "projects/demo-project/locations/us-central1/queues/fcm-notification-queue/tasks/42"),
        ("scheduled_time", JVal.jStr (isoformat (env0.now + 120))),
        ("message", JVal.jStr ("Notification scheduled for " ++
          isoformat (env0.now + 120)))])⟩ ∧
    (Obj.get [("token", JVal.jStr "abc"), ("delay", JVal.jInt 120)] "delay" = none →
      (120 : Int) = 60) :=
  schedule_success_time_and_body env0 createOk
    [("token", JVal.jStr "abc"), ("delay", JVal.jInt 120)] 120
    "projects/demo-project/locations/us-central1/queues/fcm-notification-queue/tasks/42"
    rfl rfl (fun _ _ => rfl)

/-- C3: the task payload built by `/schedule_notification` has exactly the
shape `{token, notification: {title, body}}` that the callback handler
parses: the scheduled task's body is `schedulePayload token title body`,
and feeding such a payload to `/send_notification` sends a notification
with that token, title and body unchanged. -/
theorem payload_roundtrip (env : Env)
    (create_task : String → CloudTask → Except String String)
    (sendFcm : FcmMessage → Except String String)
    (d : Obj) (n : Int) (nm msgId : String)
    (htok : pyTruthy (Obj.get d "token") = true)
    (hdelay : pyInt (Obj.getD d "delay" (JVal.jInt 60)) = Except.ok n)
    (hcreate : ∀ p t, create_task p t = Except.ok nm)
    (hs : ∀ m, sendFcm m = Except.ok msgId)
    (t x y : JVal) (ht : pyTruthyV t = true) :
    (∃ p u, (schedule_notification env create_task "POST" (Except.ok d)).2 =
        [ExtCall.create_task p u] ∧
      u.body = schedulePayload ((Obj.get d "token").getD .jNull)
        (Obj.getD d "title" (.jStr "Scheduled Notification"))
        (Obj.getD d "body" (.jStr "This is a scheduled notification from Firebase"))) ∧
    ((send_notification sendFcm "POST" (Except.ok (schedulePayload t x y))).1 =
        ⟨200, RespBody.json (JVal.jObj [("success", JVal.jBool true),
          ("message_id", JVal.jStr msgId)])⟩ ∧
      (send_notification sendFcm "POST" (Except.ok (schedulePayload t x y))).2 =
        [ExtCall.send ⟨⟨x, y⟩, t, ⟨⟨⟨1, "default"⟩⟩⟩⟩]) := by
  constructor
  · refine ⟨queue_path env.project_id env.location env.queue_name,
      ⟨"POST", "https://" ++ env.location ++ "-" ++ env.project_id ++
          ".cloudfunctions.net/send_notification", "application/json",
        schedulePayload ((Obj.get d "token").getD .jNull)
          (Obj.getD d "title" (.jStr "Scheduled Notification"))
          (Obj.getD d "body" (.jStr "This is a scheduled notification from Firebase")),
        env.now + n⟩, ?_, rfl⟩
    simp [schedule_notification, htok, hdelay, hcreate]
  · have hget : Obj.get (schedulePayload t x y) "token" = some t := rfl
    have hnotif : Obj.getD (schedulePayload t x y) "notification" (JVal.jObj []) =
        JVal.jObj [("title", x), ("body", y)] := rfl
    constructor <;>
      simp [send_notification, hget, hnotif, pyTruthy, ht, hs, Obj.getD, Obj.get,
        List.find?]

/-- Witness for C3: schedule token "abc" (delay absent), then replay the
payload `{token:"tok", notification:{title:"Hi", body:"Bye"}}` through the
callback. -/
theorem payload_roundtrip_witness :
    (∃ p u, (schedule_notification env0 createOk "POST"
        (Except.ok [("token", JVal.jStr "abc")])).2 = [ExtCall.create_task p u] ∧
      u.body = schedulePayload
        ((Obj.get [("token", JVal.jStr "abc")] "token").getD .jNull)
        (Obj.getD [("token", JVal.jStr "abc")] "title" (.jStr "Scheduled Notification"))
        (Obj.getD [("token", JVal.jStr "abc")] "body"
          (.jStr "This is a scheduled notification from Firebase"))) ∧
    ((send_notification sendOk "POST" (Except.ok
        (schedulePayload (.jStr "tok") (.jStr "Hi") (.jStr "Bye")))).1 =
        ⟨200, RespBody.json (JVal.jObj [("success", JVal.jBool true),
          ("message_id", JVal.jStr "projects/demo-project/messages/0001")])⟩ ∧
      (send_notification sendOk "POST" (Except.ok
        (schedulePayload (.jStr "tok") (.jStr "Hi") (.jStr "Bye")))).2 =
        [ExtCall.send ⟨⟨.jStr "Hi", .jStr "Bye"⟩, .jStr "tok", ⟨⟨⟨1, "default"⟩⟩⟩⟩]) :=
  payload_roundtrip env0 createOk sendOk [("token", JVal.jStr "abc")] 60
    "projects/demo-project/locations/us-central1/queues/fcm-notification-queue/tasks/42"
    "projects/demo-project/messages/0001" rfl rfl (fun _ _ => rfl) (fun _ => rfl)
    (.jStr "tok") (.jStr "Hi") (.jStr "Bye") rfl

/-- C4 counterexample: a POST to `/schedule_notification` with a token and a
non-integer `delay` ("xyz") is answered with 500, not 400: `int()` raises
and the generic exception branch replies, so an invalid `delay` is treated
as an internal error, contrary to the claim. -/
theorem schedule_invalid_delay_counterexample :
    (schedule_notification env0 createOk "POST"
      (Except.ok [("token", JVal.jStr "abc"), ("delay", JVal.jStr "xyz")])).1.status
        = 500 ∧
    ¬ (schedule_notification env0 createOk "POST"
      (Except.ok [("token", JVal.jStr "abc"), ("delay", JVal.jStr "xyz")])).1.status
        = 400 :=
  ⟨rfl, by decide⟩

/-- Every response of `schedule_notification` has a JSON body. -/
lemma schedule_body_json (env : Env)
    (create_task : String → CloudTask → Except String String)
    (method : String) (b : Except String Obj) :
    ∃ v, (schedule_notification env create_task method b).1.body = RespBody.json v := by
  unfold schedule_notification
  split
  · exact ⟨_, rfl⟩
  · split
    · exact ⟨_, rfl⟩
    · split
      · exact ⟨_, rfl⟩
      · try dsimp only
        split
        · exact ⟨_, rfl⟩
        · split
          · exact ⟨_, rfl⟩
          · exact ⟨_, rfl⟩

/-- Every non-200 response of `schedule_notification` has a JSON body with
an `"error"` key. -/
lemma schedule_not200_jsonError (env : Env)
    (create_task : String → CloudTask → Except String String)
    (method : String) (b : Except String Obj) :
    (schedule_notification env create_task method b).1.status ≠ 200 →
    jsonError (schedule_notification env create_task method b).1 = true := by
  unfold schedule_notification
  split
  · intro _; rfl
  · split
    · intro _; rfl
    · split
      · intro _; rfl
      · try dsimp only
        split
        · intro _; rfl
        · split
          · intro _; rfl
          · intro h; simp at h

/-- Every 500 response of `send_notification` has a JSON body with an
`"error"` key. -/
lemma send_notification_500_jsonError
    (sendFcm : FcmMessage → Except String String) (b : Except String Obj) :
    (send_notification sendFcm "POST" b).1.status = 500 →
    jsonError (send_notification sendFcm "POST" b).1 = true := by
  unfold send_notification
  split
  · intro h; simp at h
  · split
    · intro _; rfl
    · try dsimp only
      split
      · intro h; simp at h
      · split
        · try dsimp only
          split
          · intro h; simp at h
          · intro _; rfl
        all_goals (intro _; rfl)

/-- A failing callable result always carries an error string. -/
lemma callable_failure_has_error
    (sendFcm : FcmMessage → Except String String) (d : Obj) :
    (send_test_notification sendFcm d).1.success = false →
    (send_test_notification sendFcm d).1.error ≠ none := by
  unfold send_test_notification
  split
  · intro _; simp
  · try dsimp only
    split
    · intro h; simp at h
    · intro _; simp

/-- C4 (amended): on `/schedule_notification`, a missing token maps to 400
and internal exceptions — a malformed body, a `delay` not convertible to an
integer (treated as an internal error, not as a 400 invalid-field case),
or a queue failure — map to 500, success to 200, always with a JSON body;
on `/send_notification`, a missing token maps to a plain-text 400 and a
malformed body to a JSON 500. -/
theorem http_status_mapping (env : Env)
    (create_task : String → CloudTask → Except String String)
    (sendFcm : FcmMessage → Except String String) (d : Obj) :
    (pyTruthy (Obj.get d "token") = false →
      (schedule_notification env create_task "POST" (Except.ok d)).1 =
        ⟨400, RespBody.json (JVal.jObj [("error", JVal.jStr "Missing device token")])⟩) ∧
    (∀ e, pyTruthy (Obj.get d "token") = true →
      pyInt (Obj.getD d "delay" (JVal.jInt 60)) = Except.error e →
      (schedule_notification env create_task "POST" (Except.ok d)).1 = resp500 e) ∧
    (∀ n nm, pyTruthy (Obj.get d "token") = true →
      pyInt (Obj.getD d "delay" (JVal.jInt 60)) = Except.ok n →
      (∀ p t, create_task p t = Except.ok nm) →
      (schedule_notification env create_task "POST" (Except.ok d)).1.status = 200) ∧
    (∀ e, (schedule_notification env create_task "POST" (Except.error e)).1 =
      resp500 e) ∧
    (∀ method b, ∃ v,
      (schedule_notification env create_task method b).1.body = RespBody.json v) ∧
    (pyTruthy (Obj.get d "token") = false →
      (send_notification sendFcm "POST" (Except.ok d)).1 =
        ⟨400, RespBody.text "Missing token"⟩) ∧
    (∀ e, (send_notification sendFcm "POST" (Except.error e)).1 = resp500 e) := by
  refine ⟨?_, ?_, ?_, ?_, schedule_body_json env create_task, ?_, ?_⟩
  · intro h; simp [schedule_notification, h]
  · intro e h he; simp [schedule_notification, h, he, resp500]
  · intro n nm h hn hc; simp [schedule_notification, h, hn, hc]
  · intro e; simp [schedule_notification, resp500]
  · intro h; simp [send_notification, h]
  · intro e; simp [send_notification, resp500]

/-- Witness for C4 at concrete requests: missing token, invalid delay,
and a malformed callback body. -/
theorem http_status_mapping_witness :
    (schedule_notification env0 createOk "POST"
      (Except.ok [("delay", JVal.jStr "xyz")])).1 =
      ⟨400, RespBody.json (JVal.jObj [("error", JVal.jStr "Missing device token")])⟩ ∧
    (schedule_notification env0 createOk "POST"
      (Except.ok [("token", JVal.jStr "abc"), ("delay", JVal.jStr "xyz")])).1 =
      resp500 "invalid literal for int() with base 10: xyz" ∧
    (send_notification sendOk "POST" (Except.error "bad json")).1 =
      resp500 "bad json" :=
  ⟨(http_status_mapping env0 createOk sendOk [("delay", JVal.jStr "xyz")]).1 rfl,
   (http_status_mapping env0 createOk sendOk
     [("token", JVal.jStr "abc"), ("delay", JVal.jStr "xyz")]).2.1
     "invalid literal for int() with base 10: xyz" rfl rfl,
   (http_status_mapping env0 createOk sendOk []).2.2.2.2.2.2 "bad json"⟩

/-- C5 counterexample: a GET to `/send_notification` is answered 405 with a
plain-text body, not a JSON body carrying an `error` string. -/
theorem send_notification_405_plain_text_counterexample :
    (send_notification sendOk "GET" (Except.ok [])).1 =
      ⟨405, RespBody.text "Only POST requests are accepted"⟩ ∧
    jsonError (send_notification sendOk "GET" (Except.ok [])).1 = false :=
  ⟨rfl, rfl⟩

/-- C5 (amended): every failure of `/schedule_notification` carries a JSON
body with an `error` string, and a failing callable result carries an
error string; on `/send_notification` the 500 branch carries a JSON
`error` body, but the 405 and missing-token 400 branches reply with
plain-text bodies. -/
theorem failure_bodies (env : Env)
    (create_task : String → CloudTask → Except String String)
    (sendFcm : FcmMessage → Except String String) :
    (∀ method b, (schedule_notification env create_task method b).1.status ≠ 200 →
      jsonError (schedule_notification env create_task method b).1 = true) ∧
    (∀ d : Obj, (send_test_notification sendFcm d).1.success = false →
      (send_test_notification sendFcm d).1.error ≠ none) ∧
    (∀ m b, m ≠ "POST" →
      (send_notification sendFcm m b).1 =
        ⟨405, RespBody.text "Only POST requests are accepted"⟩) ∧
    (∀ d : Obj, pyTruthy (Obj.get d "token") = false →
      (send_notification sendFcm "POST" (Except.ok d)).1 =
        ⟨400, RespBody.text "Missing token"⟩) ∧
    (∀ b, (send_notification sendFcm "POST" b).1.status = 500 →
      jsonError (send_notification sendFcm "POST" b).1 = true) := by
  refine ⟨schedule_not200_jsonError env create_task,
    callable_failure_has_error sendFcm, ?_, ?_,
    send_notification_500_jsonError sendFcm⟩
  · intro m b hm; simp [send_notification, hm]
  · intro d hd; simp [send_notification, hd]

/-- Witness for C5 at concrete requests covering each listed branch. -/
theorem failure_bodies_witness :
    jsonError (schedule_notification env0 createOk "GET" (Except.ok [])).1 = true ∧
    (send_test_notification sendOk []).1.error ≠ none ∧
    (send_notification sendOk "GET" (Except.ok [])).1 =
      ⟨405, RespBody.text "Only POST requests are accepted"⟩ ∧
    (send_notification sendOk "POST" (Except.ok [])).1 =
      ⟨400, RespBody.text "Missing token"⟩ ∧
    jsonError (send_notification sendOk "POST" (Except.error "boom")).1 = true :=
  ⟨(failure_bodies env0 createOk sendOk).1 "GET" (Except.ok []) (by decide),
   (failure_bodies env0 createOk sendOk).2.1 [] rfl,
   (failure_bodies env0 createOk sendOk).2.2.1 "GET" (Except.ok []) (by decide),
   (failure_bodies env0 createOk sendOk).2.2.2.1 [] rfl,
   (failure_bodies env0 createOk sendOk).2.2.2.2 (Except.error "boom") rfl⟩

/-- C6: the callable is total over structured results: every request yields
either `success:true` with a message id, or `success:false` with an error
string (token missing or provider raised); no exception escapes and the
provider is invoked at most once (no retry). -/
theorem callable_total (sendFcm : FcmMessage → Except String String) (d : Obj) :
    (((send_test_notification sendFcm d).1.success = true ∧
        (send_test_notification sendFcm d).1.message_id ≠ none ∧
        (send_test_notification sendFcm d).1.error = none) ∨
      ((send_test_notification sendFcm d).1.success = false ∧
        (send_test_notification sendFcm d).1.message_id = none ∧
        (send_test_notification sendFcm d).1.error ≠ none)) ∧
    (send_test_notification sendFcm d).2.length ≤ 1 := by
  unfold send_test_notification
  split
  · exact ⟨Or.inr ⟨rfl, rfl, by simp⟩, by simp⟩
  · try dsimp only
    split
    · exact ⟨Or.inl ⟨rfl, by simp, rfl⟩, by simp⟩
    · exact ⟨Or.inr ⟨rfl, rfl, by simp⟩, by simp⟩

/-- C7: a non-POST request to either HTTP handler is answered 405 with no
external call, and the response does not depend on the request body. -/
theorem non_post_rejected (env : Env)
    (create_task : String → CloudTask → Except String String)
    (sendFcm : FcmMessage → Except String String)
    (m : String) (hm : m ≠ "POST") (b b2 : Except String Obj) :
    (schedule_notification env create_task m b).1.status = 405 ∧
    (schedule_notification env create_task m b).2 = [] ∧
    (schedule_notification env create_task m b).1 =
      (schedule_notification env create_task m b2).1 ∧
    (send_notification sendFcm m b).1.status = 405 ∧
    (send_notification sendFcm m b).2 = [] ∧
    (send_notification sendFcm m b).1 = (send_notification sendFcm m b2).1 := by
  simp [schedule_notification, send_notification, hm]

/-- Witness for C7 at a GET request with two different bodies. -/
theorem non_post_rejected_witness :
    (schedule_notification env0 createOk "GET" (Except.ok [])).1.status = 405 ∧
    (schedule_notification env0 createOk "GET" (Except.ok [])).2 = [] ∧
    (schedule_notification env0 createOk "GET" (Except.ok [])).1 =
      (schedule_notification env0 createOk "GET" (Except.error "junk")).1 ∧
    (send_notification sendOk "GET" (Except.ok [])).1.status = 405 ∧
    (send_notification sendOk "GET" (Except.ok [])).2 = [] ∧
    (send_notification sendOk "GET" (Except.ok [])).1 =
      (send_notification sendOk "GET" (Except.error "junk")).1 :=
  non_post_rejected env0 createOk sendOk "GET" (by decide)
    (Except.ok []) (Except.error "junk")

/-- C8: every message built by either sending path carries badge 1 and
sound "default", and title and body fall back to the documented defaults
exactly when the request omits them (`Obj.getD`). -/
theorem message_badge_sound_defaults
    (sendFcm sendFcm2 : FcmMessage → Except String String)
    (d d2 nd : Obj)
    (h1 : pyTruthy (Obj.get d "token") = true)
    (h2 : pyTruthy (Obj.get d2 "token") = true)
    (h2n : Obj.getD d2 "notification" (JVal.jObj []) = JVal.jObj nd) :
    (send_test_notification sendFcm d).2 =
      [ExtCall.send ⟨⟨Obj.getD d "title" (.jStr "Test Notification"),
        Obj.getD d "body" (.jStr "This is a test notification from Firebase")⟩,
        (Obj.get d "token").getD .jNull, ⟨⟨⟨1, "default"⟩⟩⟩⟩] ∧
    (send_notification sendFcm2 "POST" (Except.ok d2)).2 =
      [ExtCall.send ⟨⟨Obj.getD nd "title" (.jStr "Notification"),
        Obj.getD nd "body" (.jStr "You have a notification")⟩,
        (Obj.get d2 "token").getD .jNull, ⟨⟨⟨1, "default"⟩⟩⟩⟩] := by
  constructor
  · unfold send_test_notification
    rw [if_neg (by simp [h1])]
    try dsimp only
    cases sendFcm ⟨⟨Obj.getD d "title" (.jStr "Test Notification"),
        Obj.getD d "body" (.jStr "This is a test notification from Firebase")⟩,
        (Obj.get d "token").getD .jNull, ⟨⟨⟨1, "default"⟩⟩⟩⟩ <;> rfl
  · unfold send_notification
    rw [if_neg (by simp)]
    try dsimp only
    rw [if_neg (by simp [h2]), h2n]
    try dsimp only
    cases sendFcm2 ⟨⟨Obj.getD nd "title" (.jStr "Notification"),
        Obj.getD nd "body" (.jStr "You have a notification")⟩,
        (Obj.get d2 "token").getD .jNull, ⟨⟨⟨1, "default"⟩⟩⟩⟩ <;> rfl

/-- Witness for C8: a bare-token callable request and a bare-token callback
request, both falling back to the default title and body. -/
theorem message_badge_sound_defaults_witness :
    (send_test_notification sendOk [("token", JVal.jStr "t")]).2 =
      [ExtCall.send ⟨⟨Obj.getD [("token", JVal.jStr "t")] "title"
          (.jStr "Test Notification"),
        Obj.getD [("token", JVal.jStr "t")] "body"
          (.jStr "This is a test notification from Firebase")⟩,
        (Obj.get [("token", JVal.jStr "t")] "token").getD .jNull,
        ⟨⟨⟨1, "default"⟩⟩⟩⟩] ∧
    (send_notification sendOk "POST" (Except.ok [("token", JVal.jStr "t")])).2 =
      [ExtCall.send ⟨⟨Obj.getD ([] : Obj) "title" (.jStr "Notification"),
        Obj.getD ([] : Obj) "body" (.jStr "You have a notification")⟩,
        (Obj.get [("token", JVal.jStr "t")] "token").getD .jNull,
        ⟨⟨⟨1, "default"⟩⟩⟩⟩] :=
  message_badge_sound_defaults sendOk sendOk
    [("token", JVal.jStr "t")] [("token", JVal.jStr "t")] [] rfl rfl rfl

/-- C9 counterexample: delay -100 with the clock at 1000 is accepted with
200 and the created task's schedule time is 900, strictly before the
request time — no nonnegativity check exists. -/
theorem negative_delay_counterexample :
    (schedule_notification env0 createOk "POST"
      (Except.ok [("token", JVal.jStr "abc"), ("delay", JVal.jInt (-100))])).1.status
      = 200 ∧
    (∃ p u, (schedule_notification env0 createOk "POST"
      (Except.ok [("token", JVal.jStr "abc"), ("delay", JVal.jInt (-100))])).2 =
        [ExtCall.create_task p u] ∧ u.schedule_time = 900) ∧
    (900 : Int) < env0.now :=
  ⟨rfl, ⟨_, _, rfl, rfl⟩, by decide⟩

/-- C9 (amended): the delay used is `int(delay)` with default 60 and is not
validated to be nonnegative: any integer — negative included — is accepted
with 200, and a negative delay yields a task schedule time strictly
earlier than the request time. -/
theorem negative_delay_accepted (env : Env)
    (create_task : String → CloudTask → Except String String)
    (d : Obj) (n : Int) (nm : String)
    (htok : pyTruthy (Obj.get d "token") = true)
    (hdelay : pyInt (Obj.getD d "delay" (JVal.jInt 60)) = Except.ok n)
    (hcreate : ∀ p t, create_task p t = Except.ok nm) :
    (schedule_notification env create_task "POST" (Except.ok d)).1.status = 200 ∧
    (∃ p u, (schedule_notification env create_task "POST" (Except.ok d)).2 =
      [ExtCall.create_task p u] ∧ u.schedule_time = env.now + n) ∧
    (n < 0 → env.now + n < env.now) := by
  refine ⟨?_, ⟨queue_path env.project_id env.location env.queue_name,
    ⟨"POST", "https://" ++ env.location ++ "-" ++ env.project_id ++
        ".cloudfunctions.net/send_notification", "application/json",
      schedulePayload ((Obj.get d "token").getD .jNull)
        (Obj.getD d "title" (.jStr "Scheduled Notification"))
        (Obj.getD d "body" (.jStr "This is a scheduled notification from Firebase")),
      env.now + n⟩, ?_, rfl⟩, by omega⟩
  · simp [schedule_notification, htok, hdelay, hcreate]
  · simp [schedule_notification, htok, hdelay, hcreate]

/-- Witness for C9 at delay -100 and clock 1000. -/
theorem negative_delay_accepted_witness :
    (schedule_notification env0 createOk "POST"
      (Except.ok [("token", JVal.jStr "xyz"), ("delay", JVal.jInt (-100))])).1.status
      = 200 ∧
    (∃ p u, (schedule_notification env0 createOk "POST"
      (Except.ok [("token", JVal.jStr "xyz"), ("delay", JVal.jInt (-100))])).2 =
        [ExtCall.create_task p u] ∧ u.schedule_time = env0.now + (-100)) ∧
    ((-100 : Int) < 0 → env0.now + (-100) < env0.now) :=
  negative_delay_accepted env0 createOk
    [("token", JVal.jStr "xyz"), ("delay", JVal.jInt (-100))] (-100)
    "projects/demo-project/locations/us-central1/queues/fcm-notification-queue/tasks/42"
    rfl rfl (fun _ _ => rfl)

/-- C10: the callback reads title and body only from the nested
"notification" object: a body with a token but no "notification" key —
top-level title and body included — succeeds using the defaults
"Notification" and "You have a notification". -/
theorem flat_body_uses_defaults
    (sendFcm : FcmMessage → Except String String) (msgId : String)
    (hs : ∀ m, sendFcm m = Except.ok msgId)
    (d : Obj) (ht : pyTruthy (Obj.get d "token") = true)
    (hn : Obj.get d "notification" = none) :
    (send_notification sendFcm "POST" (Except.ok d)).1 =
      ⟨200, RespBody.json (JVal.jObj [("success", JVal.jBool true),
        ("message_id", JVal.jStr msgId)])⟩ ∧
    (send_notification sendFcm "POST" (Except.ok d)).2 =
      [ExtCall.send ⟨⟨.jStr "Notification", .jStr "You have a notification"⟩,
        (Obj.get d "token").getD .jNull, ⟨⟨⟨1, "default"⟩⟩⟩⟩] := by
  have hnd : Obj.getD d "notification" (JVal.jObj []) = JVal.jObj [] := by
    rw [Obj.getD, hn]; rfl
  constructor <;>
  · unfold send_notification
    rw [if_neg (by simp)]
    try dsimp only
    rw [if_neg (by simp [ht]), hnd]
    try dsimp only
    simp [hs, Obj.getD, Obj.get]

/-- Witness for C10: a flat `{token, title, body}` callback body; the
top-level title "X" and body "Y" are ignored in favor of the defaults. -/
theorem flat_body_uses_defaults_witness :
    (send_notification sendOk "POST" (Except.ok [("token", JVal.jStr "t"),
        ("title", JVal.jStr "X"), ("body", JVal.jStr "Y")])).1 =
      ⟨200, RespBody.json (JVal.jObj [("success", JVal.jBool true),
        ("message_id", JVal.jStr "projects/demo-project/messages/0001")])⟩ ∧
    (send_notification sendOk "POST" (Except.ok [("token", JVal.jStr "t"),
        ("title", JVal.jStr "X"), ("body", JVal.jStr "Y")])).2 =
      [ExtCall.send ⟨⟨.jStr "Notification", .jStr "You have a notification"⟩,
        (Obj.get [("token", JVal.jStr "t"), ("title", JVal.jStr "X"),
          ("body", JVal.jStr "Y")] "token").getD .jNull, ⟨⟨⟨1, "default"⟩⟩⟩⟩] :=
  flat_body_uses_defaults sendOk "projects/demo-project/messages/0001"
    (fun _ => rfl)
    [("token", JVal.jStr "t"), ("title", JVal.jStr "X"), ("body", JVal.jStr "Y")]
    rfl rfl
